import Mathlib

/-!
# Verification of the till / point-of-sale core of `loja_caixa`

Shallow embedding of the business-logic core of `src/app.py` and
`src/models.py` (a Flask + SQLAlchemy point-of-sale application).

Modelling conventions:
* money (`Float` columns) is modelled as `ℚ`;
* `DateTime` columns used only for ordering/window comparisons are
  modelled as `Int` timestamps; the report-window logic, which needs
  calendar structure, uses an explicit `PyDate`/`PyDateTime` model
  with microsecond precision (Python `datetime` carries microseconds);
* the SQLAlchemy session/commit/rollback discipline is modelled by
  functions returning `Except`: an error means the transaction was
  rolled back, so the caller keeps the unchanged database value;
* Python strings handed to SQL `LIKE` are modelled as `List Char`
  where character-level reasoning is needed.
-/

namespace LojaCaixa

/-- `Usuario` model (src/models.py): id, name, profile, active flag. -/
structure Usuario where
  id : Nat
  nome : String
  perfil : String
  ativo : Bool
deriving DecidableEq, Repr

/-- `Produto` model (src/models.py): barcode, name, sell price, stock. -/
structure Produto where
  id : Nat
  codigo_barras : String
  nome : String
  preco_venda : ℚ
  estoque_atual : Int
  estoque_minimo : Int
  ativo : Bool
deriving DecidableEq, Repr

/-- `ItemVenda` model (src/models.py): one line item of a sale. -/
structure ItemVenda where
  produto_id : Nat
  quantidade : Int
  preco_unitario : ℚ
  subtotal : ℚ
deriving DecidableEq, Repr

/-- `Venda` model (src/models.py): a sale with its line items. -/
structure Venda where
  numero_venda : String
  data_venda : Int
  valor_total : ℚ
  valor_pago : ℚ
  troco : ℚ
  forma_pagamento : String
  status : String
  usuario_id : Nat
  itens : List ItemVenda
deriving DecidableEq, Repr

/-- `MovimentoCaixa` model (src/models.py): a till session.
`data_fechamento` and `saldo_final` are nullable columns. -/
structure MovimentoCaixa where
  data_abertura : Int
  data_fechamento : Option Int
  saldo_inicial : ℚ
  saldo_final : Option ℚ
  usuario_id : Nat
  status : String
deriving DecidableEq, Repr

/-- The persistent store: the four tables the core logic touches. -/
structure DB where
  usuarios : List Usuario
  produtos : List Produto
  vendas : List Venda
  movimentos : List MovimentoCaixa
deriving DecidableEq, Repr

/-- `get_caixa_aberto` (src/app.py, lines 80-90): first `MovimentoCaixa`
row with `usuario_id = uid` and `status = 'aberto'`, if any. -/
def get_caixa_aberto (db : DB) (uid : Nat) : Option MovimentoCaixa :=
  db.movimentos.find? (fun m => decide (m.usuario_id = uid ∧ m.status = "aberto"))

/-- Outcome of the `abrir_caixa` route (flash + redirect, or creation). -/
inductive AbrirResult where
  | conflito
  | sucesso
deriving DecidableEq, Repr

/-- `abrir_caixa` POST flow (src/app.py, lines 313-342): if the operator
already has an open till, flash a warning and change nothing; otherwise
insert a new `MovimentoCaixa` with the given opening float, status
`'aberto'` and opening timestamp defaulted to the current instant
(`MovimentoCaixa.data_abertura` default in src/models.py). -/
def abrir_caixa (db : DB) (uid : Nat) (saldo_inicial : ℚ) (now : Int) :
    DB × AbrirResult :=
  match get_caixa_aberto db uid with
  | some _ => (db, .conflito)
  | none =>
    let novo : MovimentoCaixa :=
      { data_abertura := now, data_fechamento := none,
        saldo_inicial := saldo_inicial, saldo_final := none,
        usuario_id := uid, status := "aberto" }
    ({ db with movimentos := db.movimentos ++ [novo] }, .sucesso)

/-- Outcome of the `fechar_caixa` POST flow. -/
inductive FecharResult where
  | semCaixa
  | fechado (total_vendas_geral : ℚ)
deriving DecidableEq, Repr

/-- The ORM update performed by `fechar_caixa`: the single row returned
by `get_caixa_aberto` (the first open till of the operator) gets its
closing timestamp, declared cash and `'fechado'` status; all other rows
are untouched. -/
def fecha_movimento (ms : List MovimentoCaixa) (uid : Nat) (fc : Int) (sf : ℚ) :
    List MovimentoCaixa :=
  match ms with
  | [] => []
  | m :: rest =>
    if m.usuario_id = uid ∧ m.status = "aberto" then
      { m with data_fechamento := some fc, saldo_final := some sf,
               status := "fechado" } :: rest
    else m :: fecha_movimento rest uid fc sf

/-- `fechar_caixa` POST flow (src/app.py, lines 365-393): with no open
till, nothing happens; otherwise the closing instant is captured once
into `momento_fechamento`, the finalized sales of the operator in the
window `[data_abertura, momento_fechamento]` are summed for the flash
message, and the same instant is persisted as `data_fechamento` together
with the declared cash and the `'fechado'` status. -/
def fechar_caixa_post (db : DB) (uid : Nat) (saldo_final : ℚ) (now : Int) :
    DB × FecharResult :=
  match get_caixa_aberto db uid with
  | none => (db, .semCaixa)
  | some movimento_atual =>
    let momento_fechamento := now
    let vendas_periodo_post := db.vendas.filter (fun v =>
      decide (movimento_atual.data_abertura ≤ v.data_venda ∧
        v.data_venda ≤ momento_fechamento ∧
        v.usuario_id = uid ∧ v.status = "finalizada"))
    let total_vendas_geral := (vendas_periodo_post.map (·.valor_total)).sum
    ({ db with movimentos :=
        fecha_movimento db.movimentos uid momento_fechamento saldo_final },
     .fechado total_vendas_geral)

/-- Spec-side aggregation: sum of the totals of the finalized sales of
operator `uid` whose timestamp lies in the inclusive window `[ab, fim]`. -/
def soma_vendas_periodo (vendas : List Venda) (uid : Nat) (ab fim : Int) : ℚ :=
  ((vendas.filter (fun v => decide (ab ≤ v.data_venda ∧ v.data_venda ≤ fim ∧
      v.usuario_id = uid ∧ v.status = "finalizada"))).map (·.valor_total)).sum

/-- `ORDER BY data_abertura DESC ... first()` over one operator's till
sessions (src/app.py, line 239): a maximum by opening timestamp, the
earlier row winning ties. -/
def max_por_abertura : List MovimentoCaixa → Option MovimentoCaixa
  | [] => none
  | m :: ms =>
    match max_por_abertura ms with
    | none => some m
    | some b => if b.data_abertura > m.data_abertura then some b else some m

/-- The operator's most recent till session, as queried by the dashboard. -/
def ultimo_movimento (db : DB) (uid : Nat) : Option MovimentoCaixa :=
  max_por_abertura (db.movimentos.filter (fun m => decide (m.usuario_id = uid)))

/-- One row of the dashboard's per-operator till status table. -/
structure StatusCaixa where
  nome : String
  status : String
  data : Option Int
  diferenca : ℚ
  saldo_esperado : ℚ
  saldo_informado : ℚ
  mostrar_diferenca : Bool
deriving DecidableEq, Repr

/-- One entry of the dashboard's `status_caixas` list (src/app.py,
lines 238-296): for an operator whose most recent till session is
closed, the expected balance is the opening float plus the sum of
cash-only finalized sales in `[data_abertura, data_fechamento]`; the
difference against the declared closing cash is flagged when its
absolute value exceeds 0.001. A sale timestamp compared against a NULL
closing timestamp never matches (SQL three-valued comparison). -/
def status_caixa_entry (db : DB) (op : Usuario) : StatusCaixa :=
  match ultimo_movimento db op.id with
  | none =>
    { nome := op.nome, status := "nunca_aberto", data := none,
      diferenca := 0, saldo_esperado := 0, saldo_informado := 0,
      mostrar_diferenca := false }
  | some m =>
    if m.status = "fechado" then
      let vendas_dinheiro := db.vendas.filter (fun v =>
        decide (m.data_abertura ≤ v.data_venda) &&
        (match m.data_fechamento with
         | some f => decide (v.data_venda ≤ f)
         | none => false) &&
        decide (v.usuario_id = op.id) &&
        decide (v.status = "finalizada") &&
        decide (v.forma_pagamento = "dinheiro"))
      let total_vendas_dinheiro := (vendas_dinheiro.map (·.valor_total)).sum
      let saldo_esperado := m.saldo_inicial + total_vendas_dinheiro
      let saldo_final_informado := m.saldo_final.getD 0
      let diferenca := saldo_final_informado - saldo_esperado
      { nome := op.nome, status := m.status, data := m.data_fechamento,
        diferenca := diferenca, saldo_esperado := saldo_esperado,
        saldo_informado := saldo_final_informado,
        mostrar_diferenca := decide ((1 : ℚ)/1000 < |diferenca|) }
    else
      { nome := op.nome, status := m.status, data := some m.data_abertura,
        diferenca := 0, saldo_esperado := 0, saldo_informado := 0,
        mostrar_diferenca := false }

/-- The dashboard's oversight table: one status row per active operator
with profile `caixa` or `admin`. -/
def dashboard_status_caixas (db : DB) : List StatusCaixa :=
  (db.usuarios.filter (fun u =>
    (u.perfil = "caixa" || u.perfil = "admin") && u.ativo)).map
    (status_caixa_entry db)

/-- One cart line as sent by the PDV JavaScript to `finalizar_venda`. -/
structure ItemJson where
  id : Nat
  quantidade : Int
deriving DecidableEq, Repr

/-- The JSON payload of `finalizar_venda`: cart lines, amount tendered
(possibly absent) and payment method (possibly absent). -/
structure VendaJson where
  itens : List ItemJson
  valor_pago : Option ℚ
  forma_pagamento : Option String
deriving DecidableEq, Repr

/-- The error situations of `finalizar_venda`: the 403 closed-till
guard, the 400 empty-cart guard, and the exceptions raised inside the
transaction (each aborts it via `db.session.rollback()`), including the
`numero_venda` unique-constraint violation rejected on commit
(src/models.py declares `numero_venda` with `unique=True`). -/
inductive VendaErro where
  | caixaFechado
  | carrinhoVazio
  | produtoNaoEncontrado (id : Nat)
  | estoqueInsuficiente (nome : String)
  | pagoInsuficiente
  | numeroDuplicado
deriving DecidableEq, Repr

/-- The in-memory stock decrement `produto.estoque_atual -= quantidade`
applied through the ORM identity map: the product whose id matches the
cart line is decremented, every other product is untouched. -/
def atualiza_estoque (item : ItemJson) (q : Produto) : Produto :=
  if q.id = item.id then
    { q with estoque_atual := q.estoque_atual - item.quantidade }
  else q

/-- The cart-validation loop of `finalizar_venda` (src/app.py, lines
1278-1303): for each cart line, look the product up in the session (the
ORM identity map, so earlier in-memory stock decrements are visible),
fail if missing or if the requested quantity exceeds the current stock,
otherwise decrement the stock in memory, accumulate the subtotal
(unit sell price times quantity) into the running total, and build the
`ItemVenda` row. -/
def processar_itens : List Produto → List ItemJson → ℚ → List ItemVenda →
    Except VendaErro (List Produto × ℚ × List ItemVenda)
  | ps, [], total, acc => .ok (ps, total, acc)
  | ps, item :: rest, total, acc =>
    match ps.find? (fun p => decide (p.id = item.id)) with
    | none => .error (.produtoNaoEncontrado item.id)
    | some p =>
      if p.estoque_atual < item.quantidade then
        .error (.estoqueInsuficiente p.nome)
      else
        let preco_unitario := p.preco_venda
        let subtotal := preco_unitario * (item.quantidade : ℚ)
        processar_itens
          (ps.map (atualiza_estoque item))
          rest (total + subtotal)
          (acc ++ [{ produto_id := p.id, quantidade := item.quantidade,
                     preco_unitario := preco_unitario, subtotal := subtotal }])

/-- `finalizar_venda` (src/app.py, lines 1229-1332): closed-till guard,
empty-cart guard, sale number from the integer finalize timestamp,
cart validation and stock decrement, change computation (cash: change =
tendered - total, failing when negative; other methods: tendered is
overwritten to the total and change is 0), and the atomic commit, which
the unique constraint on `numero_venda` can still reject. On success it
returns the new database and the sale number; any error leaves the
database untouched (rollback). -/
def finalizar_venda (db : DB) (uid : Nat) (dados : VendaJson) (now : Int) :
    Except VendaErro (DB × String) :=
  match get_caixa_aberto db uid with
  | none => .error .caixaFechado
  | some _ =>
    if dados.itens.isEmpty then .error .carrinhoVazio
    else
      let numero_venda := "V" ++ toString now
      let valor_pago_float := dados.valor_pago.getD 0
      let forma_pagamento := dados.forma_pagamento.getD "dinheiro"
      match processar_itens db.produtos dados.itens 0 [] with
      | .error e => .error e
      | .ok (produtos2, valor_total_venda, itens_venda_db) =>
        match (if forma_pagamento = "dinheiro" then
                 if valor_pago_float - valor_total_venda < 0 then
                   Except.error VendaErro.pagoInsuficiente
                 else Except.ok (valor_pago_float,
                   valor_pago_float - valor_total_venda)
               else Except.ok (valor_total_venda, (0 : ℚ))) with
        | .error e => .error e
        | .ok (valor_pago, troco) =>
          if db.vendas.any (fun v => v.numero_venda == numero_venda) then
            .error .numeroDuplicado
          else
            let nova_venda : Venda :=
              { numero_venda := numero_venda, data_venda := now,
                valor_total := valor_total_venda, valor_pago := valor_pago,
                troco := troco, forma_pagamento := forma_pagamento,
                status := "finalizada", usuario_id := uid,
                itens := itens_venda_db }
            .ok ({ db with produtos := produtos2,
                           vendas := db.vendas ++ [nova_venda] },
                 numero_venda)

/-- The route-level behaviour of `finalizar_venda`: on any error the
transaction is rolled back, so the persistent state is unchanged. -/
def finalizar_venda_rota (db : DB) (uid : Nat) (dados : VendaJson)
    (now : Int) : DB × Except VendaErro String :=
  match finalizar_venda db uid dados now with
  | .error e => (db, .error e)
  | .ok (db2, numero) => (db2, .ok numero)

/-- A Python `date`: calendar year, month, day. -/
structure PyDate where
  year : Nat
  month : Nat
  day : Nat
deriving DecidableEq, Repr

/-- A Python `datetime`: a date plus a time of day, carrying the
microsecond component that `datetime.now()` populates and that
`.replace(hour=..., minute=..., second=...)` leaves untouched. -/
structure PyDateTime where
  date : PyDate
  hour : Nat
  minute : Nat
  second : Nat
  microsecond : Nat
deriving DecidableEq, Repr

/-- Gregorian leap year. -/
def bissexto (y : Nat) : Bool :=
  (y % 4 == 0 && y % 100 != 0) || y % 400 == 0

/-- Days in a month of the Gregorian calendar. -/
def dias_no_mes (y m : Nat) : Nat :=
  if m = 2 then (if bissexto y then 29 else 28)
  else if m = 4 ∨ m = 6 ∨ m = 9 ∨ m = 11 then 30
  else 31

/-- The previous calendar day. -/
def dia_anterior : PyDate → PyDate
  | ⟨y, m, d⟩ =>
    if 1 < d then ⟨y, m, d - 1⟩
    else if 1 < m then ⟨y, m - 1, dias_no_mes y (m - 1)⟩
    else ⟨y - 1, 12, 31⟩

/-- `date - timedelta(days=n)`. -/
def sub_dias (d : PyDate) : Nat → PyDate
  | 0 => d
  | n + 1 => sub_dias (dia_anterior d) n

/-- Fixed-width zero-padded decimal rendering (width, then value). -/
def nat_digits : Nat → Nat → List Char
  | 0, _ => []
  | w + 1, n => nat_digits w (n / 10) ++ [Char.ofNat (48 + n % 10)]

/-- `date.strftime('%Y-%m-%d')`. -/
def strftime_ymd (d : PyDate) : List Char :=
  nat_digits 4 d.year ++ '-' :: (nat_digits 2 d.month ++ '-' :: nat_digits 2 d.day)

/-- Numeric value of a digit string. -/
def parse_nat (s : List Char) : Nat :=
  s.foldl (fun a c => a * 10 + (c.toNat - 48)) 0

/-- Split a character list at every `-`. -/
def split_hifen : List Char → List (List Char)
  | [] => [[]]
  | c :: rest =>
    if c = '-' then [] :: split_hifen rest
    else
      match split_hifen rest with
      | [] => [[c]]
      | g :: gs => (c :: g) :: gs

/-- `datetime.strptime(s, '%Y-%m-%d')`: three `-`-separated numeric
fields of at most 4 / 2 / 2 digits, validated as a real calendar date
(year at least 1, month 1-12, day within the month); anything else
raises `ValueError` (`none`). -/
def strptime_ymd (s : List Char) : Option PyDate :=
  match split_hifen s with
  | [ys, ms, ds] =>
    if ys ≠ [] ∧ ys.length ≤ 4 ∧ ys.all (fun c => c.isDigit) ∧
       ms ≠ [] ∧ ms.length ≤ 2 ∧ ms.all (fun c => c.isDigit) ∧
       ds ≠ [] ∧ ds.length ≤ 2 ∧ ds.all (fun c => c.isDigit) then
      let y := parse_nat ys
      let m := parse_nat ms
      let d := parse_nat ds
      if 1 ≤ y ∧ 1 ≤ m ∧ m ≤ 12 ∧ 1 ≤ d ∧ d ≤ dias_no_mes y m then
        some ⟨y, m, d⟩
      else none
    else none
  | _ => none

/-- The report window computed by the `relatorios` route (src/app.py,
lines 853-895). `inicio_par` and `fim_par` model
`request.args.get('inicio')` / `request.args.get('fim')`, with `none`
covering an absent or empty parameter (both falsy in Python);
`hoje_local` models the `date.today()` read and `now` the separate
`datetime.now()` read used only on the invalid-date fallback path.
Missing parameters are defaulted to the strings for today minus 6 days
and today before parsing; if either string fails to parse, the fallback
recomputes the window from `datetime.now()`, whose `.replace(...)`
calls keep the clock's microsecond component in both bounds. -/
def relatorios_janela (inicio_par fim_par : Option (List Char))
    (hoje_local : PyDate) (now : PyDateTime) : PyDateTime × PyDateTime :=
  let data_inicio_str := inicio_par.getD (strftime_ymd (sub_dias hoje_local 6))
  let data_fim_str := fim_par.getD (strftime_ymd hoje_local)
  match strptime_ymd data_inicio_str, strptime_ymd data_fim_str with
  | some d1, some d2 =>
    (⟨d1, 0, 0, 0, 0⟩, ⟨d2, 23, 59, 59, 0⟩)
  | _, _ =>
    let data_fim_dt : PyDateTime :=
      { now with hour := 23, minute := 59, second := 59 }
    let data_inicio_dt : PyDateTime :=
      { data_fim_dt with date := sub_dias data_fim_dt.date 6,
                         hour := 0, minute := 0, second := 0 }
    (data_inicio_dt, data_fim_dt)

/-- A calendar date that Python's `datetime` accepts and whose
`strftime('%Y-%m-%d')` output parses back: year 1-9999, month 1-12,
day within the month. -/
def data_valida (d : PyDate) : Prop :=
  1 ≤ d.year ∧ d.year ≤ 9999 ∧ 1 ≤ d.month ∧ d.month ≤ 12 ∧
  1 ≤ d.day ∧ d.day ≤ dias_no_mes d.year d.month

instance (d : PyDate) : Decidable (data_valida d) := by
  unfold data_valida
  infer_instance

/-- Model of the Python `int(...)` conversion on the code strings the
PDV sends: all-digit strings parse to the denoted natural number, and
anything else raises `ValueError` (returns `none`). -/
def py_int (s : String) : Option Nat :=
  if s.toList ≠ [] ∧ s.toList.all (fun c => c.isDigit) then
    some (s.toList.foldl (fun a c => a * 10 + (c.toNat - 48)) 0)
  else none

/-- Product resolution of `api_buscar_produto` (src/app.py, lines
1138-1154): first an active product by exact barcode; failing that, by
numeric id when the code parses as an integer, with a product found by
id but inactive treated as not found. -/
def busca_produto (db : DB) (codigo : String) : Option Produto :=
  match db.produtos.find? (fun p =>
      decide (p.codigo_barras = codigo ∧ p.ativo = true)) with
  | some p => some p
  | none =>
    match py_int codigo with
    | none => none
    | some pid =>
      match db.produtos.find? (fun p => decide (p.id = pid)) with
      | none => none
      | some p => if p.ativo then some p else none

/-- The JSON outcomes of `api_buscar_produto`. -/
inductive ApiProdutoResp where
  | caixaFechado
  | naoEncontrado
  | semEstoque (nome : String)
  | ok (id : Nat) (nome : String) (preco_venda : ℚ) (estoque_atual : Int)
deriving DecidableEq, Repr

/-- The HTTP status code attached to each outcome in src/app.py. -/
def status_http : ApiProdutoResp → Nat
  | .caixaFechado => 403
  | .naoEncontrado => 404
  | .semEstoque _ => 400
  | .ok _ _ _ _ => 200

/-- `api_buscar_produto` (src/app.py, lines 1126-1175): closed-till
guard, barcode-then-id resolution, the out-of-stock rejection for a
resolved product with non-positive stock, and the success payload. -/
def api_buscar_produto (db : DB) (uid : Nat) (codigo : String) :
    ApiProdutoResp :=
  match get_caixa_aberto db uid with
  | none => .caixaFechado
  | some _ =>
    match busca_produto db codigo with
    | none => .naoEncontrado
    | some p =>
      if p.estoque_atual ≤ 0 then .semEstoque p.nome
      else .ok p.id p.nome p.preco_venda p.estoque_atual

/-- ASCII lower-casing, the case folding SQLite applies in
case-insensitive `LIKE` matching. -/
def lower_char (c : Char) : Char :=
  if 'A' ≤ c ∧ c ≤ 'Z' then Char.ofNat (c.toNat + 32) else c

/-- SQL `LIKE` pattern matching, case-insensitive: `%` matches any
sequence of characters, `_` matches exactly one character, and any
other pattern character matches one equal character up to ASCII case.
This is the semantics of the `ilike` filter the search route builds. -/
def like_match : List Char → List Char → Bool
  | [], s => s.isEmpty
  | c :: p, s =>
    if c = '%' then
      (List.range (s.length + 1)).any (fun n => like_match p (s.drop n))
    else
      match s with
      | [] => false
      | d :: s2 => (c = '_' || lower_char c = lower_char d) && like_match p s2

/-- `api_buscar_produtos_por_nome` (src/app.py, lines 1180-1224), the F2
catalog search: `none` models the 403 closed-till error; a term shorter
than 2 characters returns the empty list immediately; otherwise the
term is embedded in the `LIKE` pattern `%term%` and the active products
whose name or barcode match it are returned ordered by name and limited
to 20 results. -/
def api_buscar_produtos_por_nome (db : DB) (uid : Nat)
    (termo_busca : String) : Option (List Produto) :=
  match get_caixa_aberto db uid with
  | none => none
  | some _ =>
    if termo_busca.length < 2 then some []
    else
      let filtro_like := '%' :: (termo_busca.toList ++ ['%'])
      some ((List.insertionSort (fun p q => p.nome ≤ q.nome)
        (db.produtos.filter (fun p =>
          (like_match filtro_like p.nome.toList ||
           like_match filtro_like p.codigo_barras.toList) &&
          p.ativo))).take 20)

/-- Spec-side matching: the term occurs in the target as a
case-insensitive substring. -/
def contem_ci (alvo termo : String) : Prop :=
  (termo.toList.map lower_char) <:+: (alvo.toList.map lower_char)

instance (alvo termo : String) : Decidable (contem_ci alvo termo) := by
  unfold contem_ci
  infer_instance

/-- The search result as the claim words it: exactly the active
products whose name or barcode contains the term as a case-insensitive
substring, ordered by name, truncated to at most 20; terms shorter than
2 characters give the empty result. -/
def busca_spec (db : DB) (termo : String) : List Produto :=
  if termo.length < 2 then []
  else
    (List.insertionSort (fun p q => p.nome ≤ q.nome)
      (db.produtos.filter (fun p =>
        (decide (contem_ci p.nome termo) ||
         decide (contem_ci p.codigo_barras termo)) &&
        p.ativo))).take 20

/-- Concrete database for the search counterexample: one active product
named `ab` with barcode `zz`, and an open till for operator 1. -/
def c8DB : DB :=
  { usuarios := [],
    produtos := [{ id := 1, codigo_barras := "zz", nome := "ab",
                   preco_venda := 1, estoque_atual := 1,
                   estoque_minimo := 0, ativo := true }],
    vendas := [],
    movimentos := [{ data_abertura := 0, data_fechamento := none,
                     saldo_inicial := 0, saldo_final := none,
                     usuario_id := 1, status := "aberto" }] }

/-- Concrete database witnessing the amended search theorem: an
`Arroz Integral` product and a `Cafe` product, open till for operator 1. -/
def c8DB2 : DB :=
  { usuarios := [],
    produtos := [{ id := 1, codigo_barras := "711", nome := "Arroz Integral 1kg",
                   preco_venda := 10, estoque_atual := 5,
                   estoque_minimo := 0, ativo := true },
                 { id := 2, codigo_barras := "722", nome := "Cafe em Po",
                   preco_venda := 8, estoque_atual := 5,
                   estoque_minimo := 0, ativo := true }],
    vendas := [],
    movimentos := [{ data_abertura := 0, data_fechamento := none,
                     saldo_inicial := 0, saldo_final := none,
                     usuario_id := 1, status := "aberto" }] }

/-- Uniqueness invariant on sale numbers (src/models.py, line 63:
`numero_venda` is declared `unique=True`). -/
def numeros_unicos (db : DB) : Prop :=
  db.vendas.Pairwise (fun v w => v.numero_venda ≠ w.numero_venda)

/-- Concrete database used to witness the checkout theorems: one product
in stock and an open till for operator 1. -/
def pdvDB : DB :=
  { usuarios := [],
    produtos := [{ id := 1, codigo_barras := "111", nome := "Arroz",
                   preco_venda := 6, estoque_atual := 10,
                   estoque_minimo := 1, ativo := true }],
    vendas := [],
    movimentos := [{ data_abertura := 0, data_fechamento := none,
                     saldo_inicial := 100, saldo_final := none,
                     usuario_id := 1, status := "aberto" }] }

/-- Concrete checkout payload: two units of product 1, cash, tendered 20. -/
def pdvDados : VendaJson :=
  { itens := [{ id := 1, quantidade := 2 }], valor_pago := some 20,
    forma_pagamento := some "dinheiro" }

/-- The sale produced by the concrete checkout `pdvDados` at instant 50. -/
def pdvVenda : Venda :=
  { numero_venda := "V50", data_venda := 50, valor_total := 12,
    valor_pago := 20, troco := 8, forma_pagamento := "dinheiro",
    status := "finalizada", usuario_id := 1,
    itens := [{ produto_id := 1, quantidade := 2, preco_unitario := 6,
                subtotal := 12 }] }

/-- The database state after the concrete checkout `pdvDados`. -/
def pdvDB2 : DB :=
  { pdvDB with
    produtos := [{ id := 1, codigo_barras := "111", nome := "Arroz",
                   preco_venda := 6, estoque_atual := 8,
                   estoque_minimo := 1, ativo := true }],
    vendas := [pdvVenda] }

/-- Concrete cash checkout tendering 5 against a total of 12. -/
def pdvDadosInsuf : VendaJson :=
  { itens := [{ id := 1, quantidade := 2 }], valor_pago := some 5,
    forma_pagamento := some "dinheiro" }

/-- Concrete card checkout for two units of product 1, tendering 0. -/
def pdvDadosCartao : VendaJson :=
  { itens := [{ id := 1, quantidade := 2 }], valor_pago := some 0,
    forma_pagamento := some "cartao" }

/-- The sale produced by the concrete card checkout at instant 50:
the tendered amount is overwritten to the total and change is 0. -/
def pdvVendaCartao : Venda :=
  { numero_venda := "V50", data_venda := 50, valor_total := 12,
    valor_pago := 12, troco := 0, forma_pagamento := "cartao",
    status := "finalizada", usuario_id := 1,
    itens := [{ produto_id := 1, quantidade := 2, preco_unitario := 6,
                subtotal := 12 }] }

/-- The database state after the concrete card checkout. -/
def pdvDB2c : DB :=
  { pdvDB with
    produtos := [{ id := 1, codigo_barras := "111", nome := "Arroz",
                   preco_venda := 6, estoque_atual := 8,
                   estoque_minimo := 1, ativo := true }],
    vendas := [pdvVendaCartao] }

/-- Concrete operator used to witness the dashboard theorem. -/
def c1Op : Usuario := { id := 1, nome := "Ana", perfil := "caixa", ativo := true }

/-- Concrete closed till session used to witness the dashboard theorem. -/
def c1Mov : MovimentoCaixa :=
  { data_abertura := 0, data_fechamento := some 10, saldo_inicial := 100,
    saldo_final := some 100, usuario_id := 1, status := "fechado" }

/-- Concrete database used to witness the dashboard theorem: one closed
session, one in-window cash sale (5), one in-window card sale (7). -/
def c1DB : DB :=
  { usuarios := [c1Op], produtos := [],
    vendas :=
      [{ numero_venda := "V5", data_venda := 5, valor_total := 5,
         valor_pago := 5, troco := 0, forma_pagamento := "dinheiro",
         status := "finalizada", usuario_id := 1, itens := [] },
       { numero_venda := "V6", data_venda := 6, valor_total := 7,
         valor_pago := 7, troco := 0, forma_pagamento := "cartao",
         status := "finalizada", usuario_id := 1, itens := [] }],
    movimentos := [c1Mov] }

/-- Concrete open till session used to witness the close-till theorem. -/
def fecharWitnessMov : MovimentoCaixa :=
  { data_abertura := 1, data_fechamento := none, saldo_inicial := 10,
    saldo_final := none, usuario_id := 1, status := "aberto" }

/-- Concrete database used to witness the close-till theorem. -/
def fecharWitnessDB : DB :=
  { usuarios := [], produtos := [],
    vendas := [{ numero_venda := "V3", data_venda := 3, valor_total := 5,
                 valor_pago := 5, troco := 0, forma_pagamento := "dinheiro",
                 status := "finalizada", usuario_id := 1, itens := [] }],
    movimentos := [fecharWitnessMov] }

end LojaCaixa

namespace LojaCaixa

/-- If `get_caixa_aberto` returns a row, the table decomposes around that
row, with no open row of the operator before it, and `fecha_movimento`
rewrites exactly that row. -/
theorem fecha_movimento_decomp (ms : List MovimentoCaixa) (uid : Nat)
    (fc : Int) (sf : ℚ) (m : MovimentoCaixa)
    (h : ms.find? (fun x => decide (x.usuario_id = uid ∧ x.status = "aberto")) = some m) :
    ∃ pre post,
      ms = pre ++ m :: post ∧
      (∀ x ∈ pre, ¬(x.usuario_id = uid ∧ x.status = "aberto")) ∧
      fecha_movimento ms uid fc sf =
        pre ++ { m with data_fechamento := some fc, saldo_final := some sf,
                        status := "fechado" } :: post := by
  rw [List.find?_eq_some] at h
  obtain ⟨hm, pre, post, rfl, hpre⟩ := h
  refine ⟨pre, post, rfl, ?_, ?_⟩
  · intro x hx
    exact not_and_or.mpr (by simpa using hpre x hx)
  · simp only [decide_eq_true_eq] at hm
    induction pre with
    | nil => simp [fecha_movimento, hm]
    | cons y ys ih =>
      have hy : ¬(y.usuario_id = uid ∧ y.status = "aberto") :=
        not_and_or.mpr (by simpa using hpre y (by simp))
      have ih' := ih (fun a ha => hpre a (by simp [ha]))
      simp only [List.cons_append, fecha_movimento, if_neg hy]
      rw [List.append_eq, ih']

/-- The validation loop only appends items: on success the produced
items extend the accumulator, the total grows by exactly the sum of the
new items' subtotals, and every new item's subtotal is its captured unit
price times its quantity. -/
theorem processar_itens_acum (itens : List ItemJson) :
    ∀ (ps : List Produto) (total : ℚ) (acc : List ItemVenda)
      (ps2 : List Produto) (t2 : ℚ) (its2 : List ItemVenda),
      processar_itens ps itens total acc = .ok (ps2, t2, its2) →
      ∃ novos, its2 = acc ++ novos ∧
        t2 = total + (novos.map (fun it => it.subtotal)).sum ∧
        ∀ it ∈ novos, it.subtotal = it.preco_unitario * (it.quantidade : ℚ) := by
  induction itens with
  | nil =>
    intro ps total acc ps2 t2 its2 h
    simp only [processar_itens, Except.ok.injEq, Prod.mk.injEq] at h
    obtain ⟨-, rfl, rfl⟩ := h
    exact ⟨[], by simp, by simp, by simp⟩
  | cons item rest ih =>
    intro ps total acc ps2 t2 its2 h
    simp only [processar_itens] at h
    split at h
    · simp at h
    · rename_i p hf
      split at h
      · simp at h
      · obtain ⟨novos, hits, ht, hsub⟩ := ih _ _ _ _ _ _ h
        refine ⟨{ produto_id := p.id, quantidade := item.quantidade,
                  preco_unitario := p.preco_venda,
                  subtotal := p.preco_venda * (item.quantidade : ℚ) } :: novos,
               ?_, ?_, ?_⟩
        · rw [hits, List.append_assoc]
          rfl
        · rw [ht, List.map_cons, List.sum_cons]
          ring
        · intro it hit
          rcases List.mem_cons.mp hit with h1 | h2
          · rw [h1]
          · exact hsub it h2

/-- Inversion of a successful `finalizar_venda`: the guards passed, the
sale number is the prefixed finalize timestamp and clashes with no
persisted sale, the new database appends exactly one sale built from the
validation loop's output, and the tendered/change fields obey the
cash / non-cash rule. -/
theorem finalizar_venda_ok_inv (db : DB) (uid : Nat) (dados : VendaJson)
    (now : Int) (db2 : DB) (numero : String)
    (h : finalizar_venda db uid dados now = .ok (db2, numero)) :
    ∃ ps2 t2 its2 pago troco,
      processar_itens db.produtos dados.itens 0 [] = .ok (ps2, t2, its2) ∧
      numero = "V" ++ toString now ∧
      (∀ v ∈ db.vendas, v.numero_venda ≠ numero) ∧
      db2 = { db with produtos := ps2, vendas := db.vendas ++
        [{ numero_venda := numero, data_venda := now, valor_total := t2,
           valor_pago := pago, troco := troco,
           forma_pagamento := dados.forma_pagamento.getD "dinheiro",
           status := "finalizada", usuario_id := uid, itens := its2 }] } ∧
      ((dados.forma_pagamento.getD "dinheiro" = "dinheiro" ∧
          pago = dados.valor_pago.getD 0 ∧ troco = pago - t2 ∧ 0 ≤ troco) ∨
       (dados.forma_pagamento.getD "dinheiro" ≠ "dinheiro" ∧
          pago = t2 ∧ troco = 0)) := by
  unfold finalizar_venda at h
  split at h
  · simp at h
  · split at h
    · simp at h
    · split at h
      · simp at h
      · rename_i ps2 t2 its2 hp
        simp only at h
        split at h
        · simp at h
        · rename_i pt pago troco hpt
          split at h
          · simp at h
          · rename_i hdup
            have hnodup :
                ∀ v ∈ db.vendas, v.numero_venda ≠ "V" ++ toString now := by
              intro v hv heq
              exact hdup (List.any_eq_true.mpr ⟨v, hv, by simp [heq]⟩)
            simp only [Except.ok.injEq, Prod.mk.injEq] at h
            obtain ⟨hdb2, hnum⟩ := h
            refine ⟨ps2, t2, its2, pago, troco, hp, hnum.symm, ?_, ?_, ?_⟩
            · rw [← hnum]
              exact hnodup
            · rw [← hdb2, ← hnum]
            · split at hpt
              · split at hpt
                · simp at hpt
                · rename_i hf ht
                  simp only [Except.ok.injEq, Prod.mk.injEq] at hpt
                  obtain ⟨rfl, rfl⟩ := hpt
                  exact Or.inl ⟨hf, rfl, rfl, by linarith [not_lt.mp ht]⟩
              · rename_i hf
                simp only [Except.ok.injEq, Prod.mk.injEq] at hpt
                obtain ⟨rfl, rfl⟩ := hpt
                exact Or.inr ⟨hf, rfl, rfl⟩

/-- **C5.** Opening a till while the operator already has an open session
is a conflict: the database is returned unchanged (so every field of the
existing open session, and the whole `movimentos` table, are untouched
and no new session is created). With no open session, a new till session
is appended with opening timestamp `now`, status `'aberto'`, the given
opening float, and empty closing fields. -/
theorem abrir_caixa_spec (db : DB) (uid : Nat) (s : ℚ) (now : Int) :
    ((∃ m, get_caixa_aberto db uid = some m) →
      abrir_caixa db uid s now = (db, AbrirResult.conflito)) ∧
    (get_caixa_aberto db uid = none →
      abrir_caixa db uid s now =
        ({ db with movimentos := db.movimentos ++
            [{ data_abertura := now, data_fechamento := none,
               saldo_inicial := s, saldo_final := none,
               usuario_id := uid, status := "aberto" }] },
         AbrirResult.sucesso)) := by
  constructor
  · rintro ⟨m, hm⟩
    simp [abrir_caixa, hm]
  · intro h
    simp [abrir_caixa, h]

/-- **C2.** Closing a till captures one single closing instant (`now`,
read once): the very same value is the upper bound of the window whose
finalized-sales total is reported by the close operation, and the value
persisted as the session's closing timestamp; no second independent
clock reading occurs. -/
theorem fechar_caixa_instante_unico (db : DB) (uid : Nat) (sf : ℚ)
    (now : Int) (m : MovimentoCaixa) (h : get_caixa_aberto db uid = some m) :
    ∃ t, t = now ∧
      (∃ pre post,
        db.movimentos = pre ++ m :: post ∧
        (fechar_caixa_post db uid sf now).1.movimentos =
          pre ++ { m with data_fechamento := some t, saldo_final := some sf,
                          status := "fechado" } :: post) ∧
      (fechar_caixa_post db uid sf now).2 =
        FecharResult.fechado (soma_vendas_periodo db.vendas uid m.data_abertura t) := by
  obtain ⟨pre, post, hdec, _, hfm⟩ :=
    fecha_movimento_decomp db.movimentos uid now sf m h
  refine ⟨now, rfl, ⟨pre, post, hdec, ?_⟩, ?_⟩
  · simp only [fechar_caixa_post, h]
    exact hfm
  · simp only [fechar_caixa_post, h, soma_vendas_periodo]

/-- Witness for `fechar_caixa_instante_unico` on a one-session database
with one in-window sale. -/
theorem fechar_caixa_instante_unico_witness :
    ∃ t, t = (7 : Int) ∧
      (∃ pre post,
        (fecharWitnessDB).movimentos = pre ++ fecharWitnessMov :: post ∧
        (fechar_caixa_post fecharWitnessDB 1 9 7).1.movimentos =
          pre ++ { fecharWitnessMov with
                     data_fechamento := some t,
                     saldo_final := some (9 : ℚ),
                     status := "fechado" } :: post) ∧
      (fechar_caixa_post fecharWitnessDB 1 9 7).2 =
        FecharResult.fechado
          (soma_vendas_periodo (fecharWitnessDB).vendas 1
            (fecharWitnessMov).data_abertura t) :=
  fechar_caixa_instante_unico fecharWitnessDB 1 9 7 fecharWitnessMov (by decide)

/-- **C1.** For a closed till session shown on the oversight dashboard,
the expected cash balance is the opening cash float plus the sum of the
totals of the finalized, cash-paid sales of that operator whose
timestamp lies in `[opening, closing]` (card/pix, cancelled, and
out-of-window sales contribute nothing, being excluded by the filter);
the variance is the declared closing cash minus this expected balance,
and it is flagged for review exactly when its absolute value exceeds
0.001. -/
theorem dashboard_saldo_esperado (db : DB) (op : Usuario)
    (m : MovimentoCaixa) (fc : Int) (h1 : ultimo_movimento db op.id = some m)
    (h2 : m.status = "fechado") (h3 : m.data_fechamento = some fc) :
    (status_caixa_entry db op).saldo_esperado =
      m.saldo_inicial +
        ((db.vendas.filter (fun v =>
          decide (v.usuario_id = op.id ∧ v.status = "finalizada" ∧
            v.forma_pagamento = "dinheiro" ∧
            m.data_abertura ≤ v.data_venda ∧ v.data_venda ≤ fc))).map
          (fun v => v.valor_total)).sum ∧
    (status_caixa_entry db op).diferenca =
      m.saldo_final.getD 0 - (status_caixa_entry db op).saldo_esperado ∧
    ((status_caixa_entry db op).mostrar_diferenca = true ↔
      (1 : ℚ)/1000 < |(status_caixa_entry db op).diferenca|) := by
  have hfilter :
      db.vendas.filter (fun v =>
        decide (m.data_abertura ≤ v.data_venda) &&
        (match m.data_fechamento with
         | some f => decide (v.data_venda ≤ f)
         | none => false) &&
        decide (v.usuario_id = op.id) &&
        decide (v.status = "finalizada") &&
        decide (v.forma_pagamento = "dinheiro")) =
      db.vendas.filter (fun v =>
        decide (v.usuario_id = op.id ∧ v.status = "finalizada" ∧
          v.forma_pagamento = "dinheiro" ∧
          m.data_abertura ≤ v.data_venda ∧ v.data_venda ≤ fc)) := by
    refine List.filter_congr ?_
    intro v _
    rw [h3]
    simp only [decide_eq_true_eq, Bool.and_eq_true, decide_eq_true_iff]
    by_cases ha : m.data_abertura ≤ v.data_venda <;>
      by_cases hb : v.data_venda ≤ fc <;>
      by_cases hc : v.usuario_id = op.id <;>
      by_cases hd : v.status = "finalizada" <;>
      by_cases he : v.forma_pagamento = "dinheiro" <;>
      simp [ha, hb, hc, hd, he]
  simp only [status_caixa_entry, h1, h2, if_pos, hfilter]
  refine ⟨trivial, trivial, ?_⟩
  exact decide_eq_true_iff

/-- Witness for `dashboard_saldo_esperado`: concrete database with a
closed session, opening float 100, a cash sale of 5 and a card sale of 7
in the window, declared cash 100: expected 105, variance -5, flagged. -/
theorem dashboard_saldo_esperado_witness :
    (status_caixa_entry c1DB c1Op).saldo_esperado =
      (c1Mov).saldo_inicial +
        (((c1DB).vendas.filter (fun v =>
          decide (v.usuario_id = (c1Op).id ∧ v.status = "finalizada" ∧
            v.forma_pagamento = "dinheiro" ∧
            (c1Mov).data_abertura ≤ v.data_venda ∧ v.data_venda ≤ 10))).map
          (fun v => v.valor_total)).sum ∧
    (status_caixa_entry c1DB c1Op).diferenca =
      (c1Mov).saldo_final.getD 0 - (status_caixa_entry c1DB c1Op).saldo_esperado ∧
    ((status_caixa_entry c1DB c1Op).mostrar_diferenca = true ↔
      (1 : ℚ)/1000 < |(status_caixa_entry c1DB c1Op).diferenca|) :=
  dashboard_saldo_esperado c1DB c1Op c1Mov 10 (by decide) (by decide) (by decide)

/-- Witness for `abrir_caixa_spec`: on an empty database no session is
open, and opening creates the expected record. -/
theorem abrir_caixa_spec_witness :
    abrir_caixa ⟨[], [], [], []⟩ 1 5 10 =
      ({ usuarios := [], produtos := [], vendas := [],
         movimentos := [{ data_abertura := 10, data_fechamento := none,
                          saldo_inicial := 5, saldo_final := none,
                          usuario_id := 1, status := "aberto" }] },
       AbrirResult.sucesso) :=
  (abrir_caixa_spec ⟨[], [], [], []⟩ 1 5 10).2 (by decide)

/-- **C7.** Every successfully finalized sale persists a total equal to
the sum of its items' subtotals, and every item's subtotal is the unit
sell price captured at sale time multiplied by the item's quantity. -/
theorem finalizar_venda_total_itens (db : DB) (uid : Nat) (dados : VendaJson)
    (now : Int) (db2 : DB) (numero : String)
    (h : finalizar_venda db uid dados now = .ok (db2, numero)) :
    ∃ v, db2.vendas = db.vendas ++ [v] ∧
      v.valor_total = (v.itens.map (fun it => it.subtotal)).sum ∧
      ∀ it ∈ v.itens, it.subtotal = it.preco_unitario * (it.quantidade : ℚ) := by
  obtain ⟨ps2, t2, its2, pago, troco, hp, -, -, hdb2, -⟩ :=
    finalizar_venda_ok_inv db uid dados now db2 numero h
  obtain ⟨novos, hits, ht, hsub⟩ :=
    processar_itens_acum dados.itens _ _ _ _ _ _ hp
  simp only [List.nil_append] at hits
  refine ⟨_, by rw [hdb2], ?_, ?_⟩
  · simp only
    rw [ht, hits]
    simp
  · intro it hit
    simp only at hit
    exact hsub it (by rw [← hits]; exact hit)

/-- Witness for `finalizar_venda_total_itens`: the concrete checkout of
two units at price 6 persists total 12 = sum of the single subtotal. -/
theorem finalizar_venda_total_itens_witness :
    ∃ v, (pdvDB2).vendas = (pdvDB).vendas ++ [v] ∧
      v.valor_total = (v.itens.map (fun it => it.subtotal)).sum ∧
      ∀ it ∈ v.itens, it.subtotal = it.preco_unitario * (it.quantidade : ℚ) :=
  finalizar_venda_total_itens pdvDB 1 pdvDados 50 pdvDB2 "V50"
    (by
      norm_num [finalizar_venda, processar_itens, atualiza_estoque, get_caixa_aberto,
        pdvDB, pdvDados, pdvDB2, pdvVenda]
      rfl)

/-- **C3.** Payment rule of checkout finalization. Cash: the persisted
change is tendered minus total and is non-negative, with the tendered
amount taken from the payload; tendering less than the total fails with
the insufficient-payment validation error and commits nothing (the
database, hence every sale, item and stock count, is unchanged). Any
non-cash method: the persisted tendered amount is overwritten to the
total and the change is 0 regardless of the tendered amount supplied. -/
theorem finalizar_venda_pagamento (db : DB) (uid : Nat) (dados : VendaJson)
    (now : Int) :
    (∀ db2 numero, dados.forma_pagamento.getD "dinheiro" = "dinheiro" →
      finalizar_venda db uid dados now = .ok (db2, numero) →
      ∃ v, db2.vendas = db.vendas ++ [v] ∧
        v.troco = v.valor_pago - v.valor_total ∧ 0 ≤ v.troco ∧
        v.valor_pago = dados.valor_pago.getD 0) ∧
    (∀ m ps2 t2 its2,
      get_caixa_aberto db uid = some m →
      dados.itens ≠ [] →
      processar_itens db.produtos dados.itens 0 [] = .ok (ps2, t2, its2) →
      dados.forma_pagamento.getD "dinheiro" = "dinheiro" →
      dados.valor_pago.getD 0 < t2 →
      finalizar_venda_rota db uid dados now =
        (db, .error .pagoInsuficiente)) ∧
    (∀ db2 numero, dados.forma_pagamento.getD "dinheiro" ≠ "dinheiro" →
      finalizar_venda db uid dados now = .ok (db2, numero) →
      ∃ v, db2.vendas = db.vendas ++ [v] ∧
        v.valor_pago = v.valor_total ∧ v.troco = 0) := by
  refine ⟨?_, ?_, ?_⟩
  · intro db2 numero hf h
    obtain ⟨ps2, t2, its2, pago, troco, hp, -, -, hdb2, hcase⟩ :=
      finalizar_venda_ok_inv db uid dados now db2 numero h
    rcases hcase with ⟨-, hpago, htroco, hts⟩ | ⟨hne, -, -⟩
    · refine ⟨_, by rw [hdb2], ?_, ?_, ?_⟩
      · simpa using htroco
      · simpa using hts
      · simpa using hpago
    · exact absurd hf hne
  · intro m ps2 t2 its2 hm hne hp hf hlt
    have hlt0 : dados.valor_pago.getD 0 - t2 < 0 := sub_neg.mpr hlt
    simp [finalizar_venda_rota, finalizar_venda, hm,
      List.isEmpty_eq_false.mpr hne, hp, hf, hlt0]
  · intro db2 numero hf h
    obtain ⟨ps2, t2, its2, pago, troco, hp, -, -, hdb2, hcase⟩ :=
      finalizar_venda_ok_inv db uid dados now db2 numero h
    rcases hcase with ⟨hd, -, -⟩ | ⟨-, hpago, htroco⟩
    · exact absurd hd hf
    · refine ⟨_, by rw [hdb2], ?_, ?_⟩
      · simpa using hpago
      · simpa using htroco

/-- Witness for `finalizar_venda_pagamento`: all three branches at
concrete inputs — cash tendering 20 for total 12 gives change 8; cash
tendering 5 for total 12 fails leaving the database unchanged; card
tendering 0 persists tendered 12 and change 0. -/
theorem finalizar_venda_pagamento_witness :
    (∃ v, (pdvDB2).vendas = (pdvDB).vendas ++ [v] ∧
      v.troco = v.valor_pago - v.valor_total ∧ 0 ≤ v.troco ∧
      v.valor_pago = (pdvDados).valor_pago.getD 0) ∧
    finalizar_venda_rota pdvDB 1 pdvDadosInsuf 50 =
      (pdvDB, .error .pagoInsuficiente) ∧
    (∃ v, (pdvDB2c).vendas = (pdvDB).vendas ++ [v] ∧
      v.valor_pago = v.valor_total ∧ v.troco = 0) := by
  refine ⟨?_, ?_, ?_⟩
  · exact (finalizar_venda_pagamento pdvDB 1 pdvDados 50).1 pdvDB2 "V50"
      (by rfl)
      (by
        norm_num [finalizar_venda, processar_itens, atualiza_estoque, get_caixa_aberto,
          pdvDB, pdvDados, pdvDB2, pdvVenda]
        rfl)
  · exact (finalizar_venda_pagamento pdvDB 1 pdvDadosInsuf 50).2.1
      { data_abertura := 0, data_fechamento := none, saldo_inicial := 100,
        saldo_final := none, usuario_id := 1, status := "aberto" }
      [{ id := 1, codigo_barras := "111", nome := "Arroz",
         preco_venda := 6, estoque_atual := 8, estoque_minimo := 1,
         ativo := true }]
      12
      [{ produto_id := 1, quantidade := 2, preco_unitario := 6,
         subtotal := 12 }]
      (by rfl) (by simp [pdvDadosInsuf])
      (by norm_num [processar_itens, atualiza_estoque, pdvDB, pdvDadosInsuf])
      (by rfl) (by norm_num [pdvDadosInsuf])
  · exact (finalizar_venda_pagamento pdvDB 1 pdvDadosCartao 50).2.2
      pdvDB2c "V50" (by simp [pdvDadosCartao])
      (by
        norm_num [finalizar_venda, processar_itens, atualiza_estoque, get_caixa_aberto,
          pdvDB, pdvDadosCartao, pdvDB2c, pdvVendaCartao]
        rfl)

/-- **C6.** Sale-number uniqueness: starting from a database whose sale
numbers are pairwise distinct, any checkout finalization preserves the
invariant (the `unique=True` constraint on `numero_venda` aborts a
clashing commit), and any successfully persisted sale number is the
fixed prefix `V` concatenated with the integer finalize timestamp. -/
theorem finalizar_venda_numeros_unicos (db : DB) (uid : Nat)
    (dados : VendaJson) (now : Int) (h : numeros_unicos db) :
    numeros_unicos (finalizar_venda_rota db uid dados now).1 ∧
    (∀ db2 numero, finalizar_venda db uid dados now = .ok (db2, numero) →
      numero = "V" ++ toString now) := by
  constructor
  · unfold finalizar_venda_rota
    cases hfv : finalizar_venda db uid dados now with
    | error e => exact h
    | ok res =>
      obtain ⟨db2, numero⟩ := res
      obtain ⟨ps2, t2, its2, pago, troco, -, hnum, hnodup, hdb2, -⟩ :=
        finalizar_venda_ok_inv db uid dados now db2 numero hfv
      simp only
      rw [hdb2]
      unfold numeros_unicos
      simp only
      rw [List.pairwise_append]
      refine ⟨h, by simp, ?_⟩
      intro a ha b hb
      simp only [List.mem_singleton] at hb
      rw [hb]
      exact hnodup a ha
  · intro db2 numero hfv
    obtain ⟨-, -, -, -, -, -, hnum, -⟩ :=
      finalizar_venda_ok_inv db uid dados now db2 numero hfv
    exact hnum

/-- Witness for `finalizar_venda_numeros_unicos`: the empty-ledger
database has pairwise-distinct sale numbers, and a concrete checkout
preserves this while generating the number `V50` at instant 50. -/
theorem finalizar_venda_numeros_unicos_witness :
    numeros_unicos (finalizar_venda_rota pdvDB 1 pdvDados 50).1 ∧
    (∀ db2 numero, finalizar_venda pdvDB 1 pdvDados 50 = .ok (db2, numero) →
      numero = "V" ++ toString (50 : Int)) :=
  finalizar_venda_numeros_unicos pdvDB 1 pdvDados 50
    (by simp [numeros_unicos, pdvDB])

/-- The in-memory stock decrement never changes a product's id. -/
theorem atualiza_estoque_id (item : ItemJson) (q : Produto) :
    (atualiza_estoque item q).id = q.id := by
  unfold atualiza_estoque
  by_cases hq : q.id = item.id <;> simp [hq]

/-- The in-memory stock decrement never changes a product's name. -/
theorem atualiza_estoque_nome (item : ItemJson) (q : Produto) :
    (atualiza_estoque item q).nome = q.nome := by
  unfold atualiza_estoque
  by_cases hq : q.id = item.id <;> simp [hq]

/-- With a non-negative quantity, the in-memory decrement never raises
a product's stock. -/
theorem atualiza_estoque_le (item : ItemJson) (q : Produto)
    (h : 0 ≤ item.quantidade) :
    (atualiza_estoque item q).estoque_atual ≤ q.estoque_atual := by
  unfold atualiza_estoque
  by_cases hq : q.id = item.id
  · simp only [hq, if_pos]
    omega
  · simp [hq]

/-- Looking a product up by id commutes with the in-memory decrement. -/
theorem find?_map_atualiza (item : ItemJson) (ps : List Produto) (i : Nat) :
    (ps.map (atualiza_estoque item)).find? (fun p => decide (p.id = i)) =
    (ps.find? (fun p => decide (p.id = i))).map (atualiza_estoque item) := by
  rw [List.find?_map]
  have hpred : ((fun p => decide (p.id = i)) ∘ atualiza_estoque item) =
      (fun p : Produto => decide (p.id = i)) := by
    funext q
    simp [Function.comp, atualiza_estoque_id]
  rw [hpred]

/-- If every cart line references an existing product and has a
non-negative quantity, and some line requests more than the current
stock of its product, the validation loop fails with the
insufficient-stock error: stocks only shrink while the loop walks the
cart, so the offending check cannot be rescued by an earlier line. -/
theorem processar_itens_insuficiente (itens : List ItemJson) :
    ∀ (ps : List Produto) (total : ℚ) (acc : List ItemVenda),
      (∀ it ∈ itens, 0 ≤ it.quantidade ∧
        (ps.find? (fun p => decide (p.id = it.id))).isSome) →
      (∃ it ∈ itens, ∃ p,
        ps.find? (fun p => decide (p.id = it.id)) = some p ∧
        p.estoque_atual < it.quantidade) →
      ∃ nome, processar_itens ps itens total acc =
        Except.error (VendaErro.estoqueInsuficiente nome) := by
  induction itens with
  | nil =>
    intro ps total acc hall hex
    simp at hex
  | cons item rest ih =>
    intro ps total acc hall hex
    cases hf : ps.find? (fun p => decide (p.id = item.id)) with
    | none =>
      have h1 := (hall item (by simp)).2
      rw [hf] at h1
      simp at h1
    | some p =>
      by_cases hst : p.estoque_atual < item.quantidade
      · exact ⟨p.nome, by simp [processar_itens, hf, hst]⟩
      · have hq0 : 0 ≤ item.quantidade := (hall item (by simp)).1
        have hall2 : ∀ it ∈ rest, 0 ≤ it.quantidade ∧
            ((ps.map (atualiza_estoque item)).find?
              (fun p => decide (p.id = it.id))).isSome := by
          intro it hit
          obtain ⟨h0, hsome⟩ := hall it (List.mem_cons_of_mem _ hit)
          rcases Option.isSome_iff_exists.mp hsome with ⟨q, hq⟩
          refine ⟨h0, ?_⟩
          rw [find?_map_atualiza, hq]
          rfl
        have hex2 : ∃ it ∈ rest, ∃ q,
            (ps.map (atualiza_estoque item)).find?
              (fun p => decide (p.id = it.id)) = some q ∧
            q.estoque_atual < it.quantidade := by
          obtain ⟨it, hit, q, hq, hlt⟩ := hex
          rcases List.mem_cons.mp hit with rfl | hmem
          · rw [hf] at hq
            injection hq with hq
            subst hq
            exact absurd hlt hst
          · refine ⟨it, hmem, atualiza_estoque item q, ?_, ?_⟩
            · rw [find?_map_atualiza, hq]
              rfl
            · exact lt_of_le_of_lt (atualiza_estoque_le item q hq0) hlt
        obtain ⟨nome, hrec⟩ := ih (ps.map (atualiza_estoque item))
          (total + p.preco_venda * (item.quantidade : ℚ))
          (acc ++ [{ produto_id := p.id, quantidade := item.quantidade,
                     preco_unitario := p.preco_venda,
                     subtotal := p.preco_venda * (item.quantidade : ℚ) }])
          hall2 hex2
        refine ⟨nome, ?_⟩
        simp only [processar_itens, hf]
        rw [if_neg hst]
        exact hrec

/-- **C4.** A checkout whose cart contains a line requesting more than
the current stock of its (existing) product fails with the
insufficient-stock error, and the returned state is the original
database: every product's stock count is exactly what it was before the
attempt, with no partial decrement persisted. -/
theorem finalizar_venda_estoque_insuficiente (db : DB) (uid : Nat)
    (dados : VendaJson) (now : Int) (m : MovimentoCaixa)
    (hm : get_caixa_aberto db uid = some m)
    (hne : dados.itens ≠ [])
    (hall : ∀ it ∈ dados.itens, 0 ≤ it.quantidade ∧
      (db.produtos.find? (fun p => decide (p.id = it.id))).isSome)
    (hex : ∃ it ∈ dados.itens, ∃ p,
      db.produtos.find? (fun p => decide (p.id = it.id)) = some p ∧
      p.estoque_atual < it.quantidade) :
    ∃ nome, finalizar_venda_rota db uid dados now =
      (db, Except.error (VendaErro.estoqueInsuficiente nome)) := by
  obtain ⟨nome, hperr⟩ :=
    processar_itens_insuficiente dados.itens db.produtos 0 [] hall hex
  refine ⟨nome, ?_⟩
  simp [finalizar_venda_rota, finalizar_venda, hm,
    List.isEmpty_eq_false.mpr hne, hperr]

/-- Witness for `finalizar_venda_estoque_insuficiente`: requesting 11
units of a product with stock 10 fails and leaves the database as it
was. -/
theorem finalizar_venda_estoque_insuficiente_witness :
    ∃ nome, finalizar_venda_rota pdvDB 1
        { itens := [{ id := 1, quantidade := 11 }], valor_pago := some 100,
          forma_pagamento := some "dinheiro" } 50 =
      (pdvDB, Except.error (VendaErro.estoqueInsuficiente nome)) :=
  finalizar_venda_estoque_insuficiente pdvDB 1
    { itens := [{ id := 1, quantidade := 11 }], valor_pago := some 100,
      forma_pagamento := some "dinheiro" } 50
    { data_abertura := 0, data_fechamento := none, saldo_inicial := 100,
      saldo_final := none, usuario_id := 1, status := "aberto" }
    (by rfl) (by simp)
    (by
      intro it hit
      simp only [List.mem_singleton] at hit
      subst hit
      refine ⟨by norm_num, ?_⟩
      rw [show pdvDB.produtos.find?
          (fun p => decide (p.id = ItemJson.id { id := 1, quantidade := 11 })) =
          some { id := 1, codigo_barras := "111", nome := "Arroz",
                 preco_venda := 6, estoque_atual := 10, estoque_minimo := 1,
                 ativo := true } from by rfl]
      rfl)
    ⟨{ id := 1, quantidade := 11 }, by simp,
      { id := 1, codigo_barras := "111", nome := "Arroz", preco_venda := 6,
        estoque_atual := 10, estoque_minimo := 1, ativo := true },
      by rfl, by norm_num⟩

/-- A bare `%` pattern matches every string. -/
theorem like_match_so_percent (s : List Char) : like_match ['%'] s = true := by
  simp only [like_match, if_pos rfl]
  apply List.any_eq_true.mpr
  exact ⟨s.length, by simp [List.mem_range], by simp [like_match]⟩

/-- A pattern headed by `%` matches a string exactly when the rest of
the pattern matches some suffix of it. -/
theorem like_match_percent_cons (p : List Char) (s : List Char) :
    like_match ('%' :: p) s = true ↔
      ∃ n, like_match p (s.drop n) = true := by
  rw [show like_match ('%' :: p) s =
      (List.range (s.length + 1)).any (fun n => like_match p (s.drop n)) from
    by simp [like_match]]
  rw [List.any_eq_true]
  constructor
  · rintro ⟨n, -, hn⟩
    exact ⟨n, hn⟩
  · rintro ⟨n, hn⟩
    by_cases hle : n ≤ s.length
    · refine ⟨n, ?_, hn⟩
      rw [List.mem_range]
      omega
    · refine ⟨s.length, by simp [List.mem_range], ?_⟩
      rw [List.drop_eq_nil_of_le (le_refl _)]
      rwa [List.drop_eq_nil_of_le (by omega)] at hn

/-- A wildcard-free pattern followed by `%` matches a string exactly
when the pattern's case-folded characters begin the string's
case-folded characters. -/
theorem like_match_literais :
    ∀ (lits : List Char), (∀ c ∈ lits, c ≠ '%' ∧ c ≠ '_') →
      ∀ s, (like_match (lits ++ ['%']) s = true ↔
        ∃ t, s.map lower_char = lits.map lower_char ++ t) := by
  intro lits
  induction lits with
  | nil =>
    intro _ s
    refine ⟨fun _ => ⟨s.map lower_char, by simp⟩, fun _ => ?_⟩
    simp [like_match_so_percent]
  | cons c lits ih =>
    intro hw s
    have hc := hw c (by simp)
    have ihs := ih (fun x hx => hw x (by simp [hx]))
    cases s with
    | nil =>
      simp [like_match, hc.1]
    | cons d s2 =>
      simp only [List.cons_append, like_match, if_neg hc.1, List.map_cons,
        Bool.and_eq_true, Bool.or_eq_true, decide_eq_true_eq]
      constructor
      · rintro ⟨h1 | h1, h2⟩
        · exact absurd h1 hc.2
        · obtain ⟨t, ht⟩ := (ihs s2).mp h2
          refine ⟨t, ?_⟩
          rw [← h1, ht]
      · rintro ⟨t, ht⟩
        rw [List.cons.injEq] at ht
        obtain ⟨hd, ht2⟩ := ht
        exact ⟨Or.inr hd.symm, (ihs s2).mpr ⟨t, ht2⟩⟩

/-- For a wildcard-free term, the search pattern `%term%` matches a
string exactly when the term occurs in it as a case-insensitive
substring. -/
theorem like_match_contem (lits : List Char)
    (hw : ∀ c ∈ lits, c ≠ '%' ∧ c ≠ '_') (s : List Char) :
    (like_match ('%' :: (lits ++ ['%'])) s = true ↔
      (lits.map lower_char) <:+: (s.map lower_char)) := by
  rw [like_match_percent_cons]
  constructor
  · rintro ⟨n, hn⟩
    obtain ⟨t, ht⟩ := (like_match_literais lits hw _).mp hn
    rw [List.map_drop] at ht
    refine ⟨(s.map lower_char).take n, t, ?_⟩
    rw [List.append_assoc, ← ht, List.take_append_drop]
  · rintro ⟨a, b, hab⟩
    refine ⟨a.length, (like_match_literais lits hw _).mpr ⟨b, ?_⟩⟩
    rw [List.map_drop, ← hab, List.append_assoc, List.drop_left]

/-- **C10.** At the point-of-sale product lookup API, a resolved product
is always active; a resolved product with stock at or below zero is not
returned as a normal result but rejected with the out-of-stock error and
status 400; an unresolved code (missing product, or product inactive on
both resolution paths) yields the distinct not-found error with status
404; and a resolved product with positive stock is returned normally. -/
theorem api_buscar_produto_estoque (db : DB) (uid : Nat) (codigo : String)
    (m : MovimentoCaixa) (hm : get_caixa_aberto db uid = some m) :
    (∀ p, busca_produto db codigo = some p → p.ativo = true) ∧
    (∀ p, busca_produto db codigo = some p → p.estoque_atual ≤ 0 →
      api_buscar_produto db uid codigo = .semEstoque p.nome ∧
      status_http (api_buscar_produto db uid codigo) = 400) ∧
    (busca_produto db codigo = none →
      api_buscar_produto db uid codigo = .naoEncontrado ∧
      status_http (api_buscar_produto db uid codigo) = 404) ∧
    (∀ p, busca_produto db codigo = some p → 0 < p.estoque_atual →
      api_buscar_produto db uid codigo =
        .ok p.id p.nome p.preco_venda p.estoque_atual) := by
  refine ⟨?_, ?_, ?_, ?_⟩
  · intro p hp
    unfold busca_produto at hp
    split at hp
    · rename_i q hq
      injection hp with hp
      subst hp
      have hq2 := List.find?_some hq
      simp only [decide_eq_true_eq] at hq2
      exact hq2.2
    · split at hp
      · simp at hp
      · split at hp
        · simp at hp
        · split at hp
          · rename_i hativo
            injection hp with hp
            subst hp
            exact hativo
          · simp at hp
  · intro p hp hle
    have hres : api_buscar_produto db uid codigo = .semEstoque p.nome := by
      unfold api_buscar_produto
      rw [hm, hp]
      simp [hle]
    exact ⟨hres, by rw [hres]; rfl⟩
  · intro hp
    have hres : api_buscar_produto db uid codigo = .naoEncontrado := by
      unfold api_buscar_produto
      rw [hm, hp]
    exact ⟨hres, by rw [hres]; rfl⟩
  · intro p hp hpos
    unfold api_buscar_produto
    rw [hm, hp]
    simp [not_le.mpr hpos]

/-- Witness for `api_buscar_produto_estoque`: a database whose only
product is active with stock 0; looking it up by barcode returns the
400 out-of-stock error, and an unknown code returns 404. -/
theorem api_buscar_produto_estoque_witness :
    (∀ p, busca_produto
        { usuarios := [], produtos :=
            [{ id := 1, codigo_barras := "111", nome := "Arroz",
               preco_venda := 6, estoque_atual := 0, estoque_minimo := 1,
               ativo := true }],
          vendas := [], movimentos :=
            [{ data_abertura := 0, data_fechamento := none,
               saldo_inicial := 100, saldo_final := none,
               usuario_id := 1, status := "aberto" }] } "111" = some p →
      p.estoque_atual ≤ 0 →
      api_buscar_produto
        { usuarios := [], produtos :=
            [{ id := 1, codigo_barras := "111", nome := "Arroz",
               preco_venda := 6, estoque_atual := 0, estoque_minimo := 1,
               ativo := true }],
          vendas := [], movimentos :=
            [{ data_abertura := 0, data_fechamento := none,
               saldo_inicial := 100, saldo_final := none,
               usuario_id := 1, status := "aberto" }] } 1 "111" =
        .semEstoque p.nome) ∧
    api_buscar_produto
      { usuarios := [], produtos :=
          [{ id := 1, codigo_barras := "111", nome := "Arroz",
             preco_venda := 6, estoque_atual := 0, estoque_minimo := 1,
             ativo := true }],
        vendas := [], movimentos :=
          [{ data_abertura := 0, data_fechamento := none,
             saldo_inicial := 100, saldo_final := none,
             usuario_id := 1, status := "aberto" }] } 1 "nada" =
      .naoEncontrado := by
  constructor
  · intro p hp hle
    exact ((api_buscar_produto_estoque _ 1 "111" _ (by rfl)).2.1 p hp hle).1
  · exact ((api_buscar_produto_estoque _ 1 "nada" _ (by rfl)).2.2.1
      (by rfl)).1

/-- Any Gregorian month has at most 31 days. -/
theorem dias_no_mes_le (y m : Nat) : dias_no_mes y m ≤ 31 := by
  unfold dias_no_mes
  split
  · split <;> omega
  · split <;> omega

/-- The fixed-width renderer emits exactly `w` digit characters (never
a hyphen), and parsing recovers any value below `10 ^ w`. -/
theorem nat_digits_spec (w : Nat) :
    ∀ n, (nat_digits w n).length = w ∧
      (∀ c ∈ nat_digits w n, c.isDigit = true ∧ c ≠ '-') ∧
      (n < 10 ^ w → parse_nat (nat_digits w n) = n) := by
  induction w with
  | zero =>
    intro n
    refine ⟨rfl, by simp [nat_digits], ?_⟩
    intro h
    interval_cases n
    rfl
  | succ w ih =>
    intro n
    obtain ⟨ihl, ihm, ihp⟩ := ih (n / 10)
    have hdig : ∀ r < 10, (Char.ofNat (48 + r)).isDigit = true ∧
        Char.ofNat (48 + r) ≠ '-' ∧ (Char.ofNat (48 + r)).toNat = 48 + r := by
      decide
    have hmod := hdig (n % 10) (Nat.mod_lt _ (by omega))
    refine ⟨?_, ?_, ?_⟩
    · simp [nat_digits, ihl]
    · intro c hc
      rw [nat_digits, List.mem_append] at hc
      rcases hc with hc | hc
      · exact ihm c hc
      · rw [List.mem_singleton] at hc
        subst hc
        exact ⟨hmod.1, hmod.2.1⟩
    · intro hlt
      rw [nat_digits, parse_nat, List.foldl_append]
      have hdiv : n / 10 < 10 ^ w := by
        rw [Nat.div_lt_iff_lt_mul (by omega)]
        calc n < 10 ^ (w + 1) := hlt
          _ = 10 ^ w * 10 := by ring
      rw [show (nat_digits w (n / 10)).foldl
          (fun a c => a * 10 + (c.toNat - 48)) 0 =
          parse_nat (nat_digits w (n / 10)) from rfl]
      rw [ihp hdiv]
      simp only [List.foldl_cons, List.foldl_nil, hmod.2.2]
      omega

/-- Splitting a hyphen-free string at hyphens gives it back whole. -/
theorem split_hifen_sem (a : List Char) (h : ∀ c ∈ a, c ≠ '-') :
    split_hifen a = [a] := by
  induction a with
  | nil => rfl
  | cons c rest ih =>
    have hc : c ≠ '-' := h c (by simp)
    have ih2 := ih (fun x hx => h x (by simp [hx]))
    simp [split_hifen, hc, ih2]

/-- Splitting distributes over the first hyphen after a hyphen-free
chunk. -/
theorem split_hifen_append (a t : List Char) (h : ∀ c ∈ a, c ≠ '-') :
    split_hifen (a ++ '-' :: t) = a :: split_hifen t := by
  induction a with
  | nil => simp [split_hifen]
  | cons c rest ih =>
    have hc : c ≠ '-' := h c (by simp)
    have ih2 := ih (fun x hx => h x (by simp [hx]))
    simp [split_hifen, hc, ih2]

/-- Parsing inverts formatting on every valid calendar date. -/
theorem strptime_strftime (d : PyDate) (hv : data_valida d) :
    strptime_ymd (strftime_ymd d) = some d := by
  obtain ⟨h1, h2, h3, h4, h5, h6⟩ := hv
  obtain ⟨hYl, hYm, hYp⟩ := nat_digits_spec 4 d.year
  obtain ⟨hMl, hMm, hMp⟩ := nat_digits_spec 2 d.month
  obtain ⟨hDl, hDm, hDp⟩ := nat_digits_spec 2 d.day
  have hYv : parse_nat (nat_digits 4 d.year) = d.year := hYp (by omega)
  have hMv : parse_nat (nat_digits 2 d.month) = d.month := hMp (by omega)
  have hDv : parse_nat (nat_digits 2 d.day) = d.day := by
    have := dias_no_mes_le d.year d.month
    exact hDp (by omega)
  rw [strftime_ymd, strptime_ymd,
    split_hifen_append _ _ (fun c hc => (hYm c hc).2),
    split_hifen_append _ _ (fun c hc => (hMm c hc).2),
    split_hifen_sem _ (fun c hc => (hDm c hc).2)]
  simp only
  rw [if_pos ⟨by simp [← List.length_pos, hYl], by omega,
    List.all_eq_true.mpr (fun c hc => (hYm c hc).1), by simp [← List.length_pos, hMl],
    by omega, List.all_eq_true.mpr (fun c hc => (hMm c hc).1),
    by simp [← List.length_pos, hDl], by omega,
    List.all_eq_true.mpr (fun c hc => (hDm c hc).1)⟩]
  rw [if_pos ⟨by rw [hYv]; omega, by rw [hMv]; omega, by rw [hMv]; omega,
    by rw [hDv]; omega, by rw [hDv, hYv, hMv]; omega⟩]
  rw [hYv, hMv, hDv]

/-- **C9 (counterexample to the claim as stated).** On an invalid date
parameter the route recomputes the fallback window from
`datetime.now()`, and `.replace(hour=..., minute=..., second=...)`
keeps the clock's microsecond component: run on 2024-06-10 at
12:00:00.500000 with `inicio=x`, the window is
[2024-06-04 00:00:00.500000, 2024-06-10 23:59:59.500000], not the
claimed [2024-06-04 00:00:00, 2024-06-10 23:59:59]. -/
theorem relatorios_janela_contraexemplo :
    relatorios_janela (some ['x']) none ⟨2024, 6, 10⟩
        ⟨⟨2024, 6, 10⟩, 12, 0, 0, 500000⟩ ≠
      (⟨⟨2024, 6, 4⟩, 0, 0, 0, 0⟩, ⟨⟨2024, 6, 10⟩, 23, 59, 59, 0⟩) := by
  decide

/-- **C9 (amended).** With no date parameters the report window is the
trailing 7 calendar days ending today: today minus 6 days at 00:00:00
through today at 23:59:59 (microsecond 0). When either supplied date
string fails to parse as `YYYY-MM-DD`, the route does not error but
falls back to the same trailing-7-day calendar window recomputed from
the current clock reading, whose microsecond component is retained in
both bounds (so it equals the claimed window exactly when the clock's
microsecond is 0). -/
theorem relatorios_janela_spec (hoje : PyDate) (now : PyDateTime)
    (h1 : data_valida hoje) (h6 : data_valida (sub_dias hoje 6)) :
    relatorios_janela none none hoje now =
      (⟨sub_dias hoje 6, 0, 0, 0, 0⟩, ⟨hoje, 23, 59, 59, 0⟩) ∧
    (∀ ip fp,
      (strptime_ymd (ip.getD (strftime_ymd (sub_dias hoje 6))) = none ∨
       strptime_ymd (fp.getD (strftime_ymd hoje)) = none) →
      relatorios_janela ip fp hoje now =
        (⟨sub_dias now.date 6, 0, 0, 0, now.microsecond⟩,
         ⟨now.date, 23, 59, 59, now.microsecond⟩)) := by
  constructor
  · simp only [relatorios_janela, Option.getD_none]
    rw [strptime_strftime _ h6, strptime_strftime _ h1]
  · intro ip fp hbad
    simp only [relatorios_janela]
    rcases hbad with hbad | hbad
    · rw [hbad]
    · rw [hbad]
      cases strptime_ymd (ip.getD (strftime_ymd (sub_dias hoje 6))) with
      | none => rfl
      | some d1 => rfl

/-- Witness for `relatorios_janela_spec` at 2024-06-10, clock
12:00:00.500000: the no-parameter window is
[2024-06-04 00:00:00, 2024-06-10 23:59:59] and the `inicio=x` fallback
carries the 500000-microsecond component in both bounds. -/
theorem relatorios_janela_spec_witness :
    relatorios_janela none none ⟨2024, 6, 10⟩
        ⟨⟨2024, 6, 10⟩, 12, 0, 0, 500000⟩ =
      (⟨⟨2024, 6, 4⟩, 0, 0, 0, 0⟩, ⟨⟨2024, 6, 10⟩, 23, 59, 59, 0⟩) ∧
    relatorios_janela (some ['x']) none ⟨2024, 6, 10⟩
        ⟨⟨2024, 6, 10⟩, 12, 0, 0, 500000⟩ =
      (⟨⟨2024, 6, 4⟩, 0, 0, 0, 500000⟩,
       ⟨⟨2024, 6, 10⟩, 23, 59, 59, 500000⟩) := by
  have h := relatorios_janela_spec ⟨2024, 6, 10⟩
    ⟨⟨2024, 6, 10⟩, 12, 0, 0, 500000⟩ (by decide) (by decide)
  exact ⟨h.1.trans (by decide),
    (h.2 (some ['x']) none (Or.inl (by decide))).trans (by decide)⟩

/-- **C8 (counterexample to the claim as stated).** The search route
embeds the raw term in a SQL `LIKE` pattern, so a term containing the
`LIKE` wildcard `_` matches products that do not contain it as a
substring: searching `__` over a catalog with the product named `ab`
(barcode `zz`) returns that product, while the case-insensitive
substring reading of the claim returns nothing. -/
theorem busca_por_nome_contraexemplo :
    api_buscar_produtos_por_nome c8DB 1 "__" ≠ some (busca_spec c8DB "__") := by
  decide

/-- **C8 (amended).** For a search term containing no SQL `LIKE`
wildcard (`%` or `_`), the route returns exactly the claim's result:
terms shorter than 2 characters give the empty result immediately, and
otherwise the active products whose name or barcode contains the term
as a case-insensitive substring are returned, ordered by name and
truncated to at most 20. -/
theorem busca_por_nome_spec (db : DB) (uid : Nat) (termo : String)
    (m : MovimentoCaixa) (hm : get_caixa_aberto db uid = some m)
    (hw : ∀ c ∈ termo.toList, c ≠ '%' ∧ c ≠ '_') :
    api_buscar_produtos_por_nome db uid termo =
      some (busca_spec db termo) := by
  simp only [api_buscar_produtos_por_nome, busca_spec, hm]
  by_cases hlen : termo.length < 2
  · rw [if_pos hlen, if_pos hlen]
  · rw [if_neg hlen, if_neg hlen]
    have hfil : db.produtos.filter (fun p =>
        (like_match ('%' :: (termo.toList ++ ['%'])) p.nome.toList ||
         like_match ('%' :: (termo.toList ++ ['%'])) p.codigo_barras.toList) &&
        p.ativo) =
      db.produtos.filter (fun p =>
        (decide (contem_ci p.nome termo) ||
         decide (contem_ci p.codigo_barras termo)) && p.ativo) := by
      apply List.filter_congr
      intro p _
      have e1 : like_match ('%' :: (termo.toList ++ ['%'])) p.nome.toList =
          decide (contem_ci p.nome termo) := by
        rw [Bool.eq_iff_iff, decide_eq_true_eq]
        exact like_match_contem termo.toList hw p.nome.toList
      have e2 : like_match ('%' :: (termo.toList ++ ['%']))
            p.codigo_barras.toList =
          decide (contem_ci p.codigo_barras termo) := by
        rw [Bool.eq_iff_iff, decide_eq_true_eq]
        exact like_match_contem termo.toList hw p.codigo_barras.toList
      rw [e1, e2]
    rw [hfil]

/-- Witness for `busca_por_nome_spec`: searching `ar` over the concrete
catalog returns exactly the spec-side result. -/
theorem busca_por_nome_spec_witness :
    api_buscar_produtos_por_nome c8DB2 1 "ar" =
      some (busca_spec c8DB2 "ar") :=
  busca_por_nome_spec c8DB2 1 "ar"
    { data_abertura := 0, data_fechamento := none, saldo_inicial := 0,
      saldo_final := none, usuario_id := 1, status := "aberto" }
    (by rfl) (by decide)

end LojaCaixa
